import Mathlib

/-!
Verification of the rule-based SQL classification engine of "the-architect":
the migration risk classifier (`scripts/migration-validator.py`), the
additivity and runtime heuristics (`src/architect_tools.py`,
`MigrationGeneratorTool`), the RLS compliance auditor
(`scripts/rls-auditor.py`) and the query advisor
(`scripts/index-analyzer.py`).

Python strings are embedded as Lean `String`; Python `needle in hay` is the
executable substring search `strIn`; `str.upper`/`str.lower` are per-character
ASCII case maps; file and directory reads are embedded as `Option` inputs
(`none` = the path does not exist). The regular-expression extractions and
searches of the auditor and the advisor are embedded as direct scanners that
realize exactly the regexes appearing in the source (each scanner doc
comment names the regex it realizes).
-/

namespace Architect

/-- Embedding of Python `str.upper()` (per-character ASCII uppercase). -/
def pyUpper (s : String) : String := String.mk (s.data.map Char.toUpper)

/-- Embedding of Python `str.lower()` (per-character ASCII lowercase). -/
def pyLower (s : String) : String := String.mk (s.data.map Char.toLower)

/-- Predicate `startsWithLit p l`: true iff the character list `p` is a prefix of `l`. -/
def startsWithLit : List Char → List Char → Bool
  | [], _ => true
  | _ :: _, [] => false
  | p :: ps, c :: cs => p == c && startsWithLit ps cs

/-- Substring test `containsLit needle l`: does `needle` occur as a contiguous run in `l`? -/
def containsLit (needle : List Char) : List Char → Bool
  | [] => startsWithLit needle []
  | c :: cs => startsWithLit needle (c :: cs) || containsLit needle cs

/-- Embedding of Python `needle in hay` on strings (substring test). -/
def strIn (needle hay : String) : Bool := containsLit needle.data hay.data

/-! ## scripts/migration-validator.py -/

/-- Registry `DANGEROUS_OPS` of `migration-validator.py`: marker, description pairs,
in dictionary insertion order. -/
def DANGEROUS_OPS : List (String × String) :=
  [("DROP TABLE", "🚨 Table deletion - requires full backup"),
   ("DROP COLUMN", "🚨 Column deletion - use deprecation instead"),
   ("ALTER COLUMN TYPE", "🚨 Type change - requires table rewrite"),
   ("TRUNCATE", "🚨 Data truncation - irreversible"),
   ("RENAME COLUMN", "⚠️ Rename - breaks application code"),
   ("RENAME TABLE", "⚠️ Rename - breaks application code")]

/-- Registry `SAFE_OPS` of `migration-validator.py`. -/
def SAFE_OPS : List String :=
  ["ADD COLUMN", "CREATE TABLE", "CREATE INDEX CONCURRENTLY", "ADD CONSTRAINT"]

/-- The file-content part of `validate_migration` (lines 35-63): given the
file text, return `(is_safe, issues, warnings)` exactly as the source
computes them. -/
def validateContent (content : String) : Bool × List String × List String :=
  let content_upper := pyUpper content
  let issues :=
    (DANGEROUS_OPS.filter (fun od => strIn od.1 content_upper)).map (fun od => od.2)
  let warnings :=
    (if strIn "CREATE INDEX" content_upper && !(strIn "CONCURRENTLY" content_upper) then
       ["⚠️ Index creation without CONCURRENTLY - will lock table"] else []) ++
    (if strIn "CREATE TABLE" content_upper then
       (if !(strIn "ENABLE ROW LEVEL SECURITY" content_upper) then
          ["⚠️ New table without RLS enabled"] else []) ++
       (if !(strIn "CREATE POLICY" content_upper) then
          ["⚠️ New table without RLS policies"] else [])
     else []) ++
    (if !(strIn "ROLLBACK" content_upper) && !(strIn "-- DOWN" content_upper) then
       ["ℹ️ No rollback plan documented"] else [])
  let is_safe := issues.length == 0
  (is_safe, issues, warnings)

/-- Embedding of `validate_migration` of `migration-validator.py`. The filesystem read is
embedded as the `Option String` argument: `none` means `path.exists()` is
false, `some content` means the file exists with text `content`. -/
def validate_migration (file_path : String) (content? : Option String) :
    Bool × List String × List String :=
  match content? with
  | none => (false, ["File not found: " ++ file_path], [])
  | some content => validateContent content

/-! ## src/architect_tools.py, MigrationGeneratorTool -/

/-- The `dangerous` marker list inside `MigrationGeneratorTool._is_additive`. -/
def dangerous : List String :=
  ["DROP TABLE", "DROP COLUMN", "ALTER COLUMN TYPE", "TRUNCATE"]

/-- Embedding of `MigrationGeneratorTool._is_additive`. -/
def is_additive (sql : String) : Bool :=
  let sql_upper := pyUpper sql
  !(dangerous.any (fun d => strIn d sql_upper))

/-- Embedding of `MigrationGeneratorTool._estimate_runtime`. The unbounded Python `int`
row count is embedded as `Int`. -/
def estimate_runtime (sql : String) (rows : Int) : String :=
  let sql_upper := pyUpper sql
  if strIn "CREATE TABLE" sql_upper then "<1 second"
  else if strIn "ADD COLUMN" sql_upper then
    (if !(strIn "DEFAULT" sql_upper) then "<1 second (nullable column)"
     else "1-30 seconds")
  else if strIn "CREATE INDEX" sql_upper then
    (if rows < 100000 then "5-15 seconds" else "1-5 minutes")
  else "Unknown - requires testing"

/-- The `RuntimeBucket` enumeration of the spec. -/
inductive RuntimeBucket
  | SubSecond
  | ShortSeconds
  | LongMinutes
  | Unknown
deriving DecidableEq

/-- The mapping, fixed by the spec, of the free-text runtime labels of the code onto the four
`RuntimeBucket` values ("informal free-text bucket label is acceptable at the
boundary, but the underlying decision must map onto the four enumerated
buckets"). -/
def bucketOf (label : String) : RuntimeBucket :=
  if label == "<1 second" then .SubSecond
  else if label == "<1 second (nullable column)" then .SubSecond
  else if label == "1-30 seconds" then .ShortSeconds
  else if label == "5-15 seconds" then .ShortSeconds
  else if label == "1-5 minutes" then .LongMinutes
  else .Unknown

/-! ## scripts/rls-auditor.py -/

/-- Registry `REQUIRED_RLS_TABLES` of `rls-auditor.py`. -/
def REQUIRED_RLS_TABLES : List String :=
  ["profiles", "accounts", "credit_cards", "auto_loans", "p2p_loans",
   "transactions", "subscriptions", "transfer_pairs", "user_category_rules"]

/-- Registry `EXEMPT_TABLES` of `rls-auditor.py` (global lookup tables). -/
def EXEMPT_TABLES : List String := ["merchant_database"]

/-- Python regex `\w` restricted to the ASCII inputs this tool works on:
letters, digits, underscore. -/
def isWordChar (c : Char) : Bool := c.isAlphanum || c == '_'

/-- Strip the literal char list `p` from the head of `l`; `none` if `p` is not
a prefix of `l`. -/
def stripLit : List Char → List Char → Option (List Char)
  | [], l => some l
  | _ :: _, [] => none
  | p :: ps, c :: cs => if p == c then stripLit ps cs else none

/-- Split off the maximal run of `\w` characters at the head of a list
(the greedy match of `\w*`). -/
def wordRun : List Char → List Char × List Char
  | [] => ([], [])
  | c :: cs =>
    if isWordChar c then
      let p := wordRun cs
      (c :: p.1, p.2)
    else ([], c :: cs)

/-- Anchored match of the regex `ALTER TABLE (\w+) ENABLE ROW LEVEL SECURITY`
(line 44 of `rls-auditor.py`) at the head of `l`: on success, the captured
table name and the remainder after the whole match. Greedy `\w+` is maximal
here because the following literal starts with a space, which is not a `\w`
character. -/
def matchRlsAt (l : List Char) : Option (List Char × List Char) :=
  match stripLit "ALTER TABLE ".data l with
  | none => none
  | some l1 =>
    let p := wordRun l1
    if p.1.isEmpty then none
    else
      match stripLit " ENABLE ROW LEVEL SECURITY".data p.2 with
      | none => none
      | some l2 => some (p.1, l2)

/-- Anchored match of the regex `CREATE TABLE (?:IF NOT EXISTS )?(\w+)`
(line 48 of `rls-auditor.py`) at the head of `l`. The optional group is
tried first (regex `?` is greedy); if no `\w+` follows it, the engine
backtracks and the group is dropped — then `\w+` can capture the `IF` of
`IF NOT EXISTS` itself, exactly as the Python re module does. -/
def matchCreateAt (l : List Char) : Option (List Char × List Char) :=
  match stripLit "CREATE TABLE ".data l with
  | none => none
  | some l1 =>
    match stripLit "IF NOT EXISTS ".data l1 with
    | some l2 =>
      let p := wordRun l2
      if p.1.isEmpty then
        let q := wordRun l1
        if q.1.isEmpty then none else some (q.1, q.2)
      else some (p.1, p.2)
    | none =>
      let q := wordRun l1
      if q.1.isEmpty then none else some (q.1, q.2)

/-- The re.findall scanning discipline: try a match at every position, left to right,
non-overlapping (continue after the end of each match). The `Nat` fuel is
instantiated with the list length, which suffices because every successful
step consumes at least one character. -/
def findAll (step : List Char → Option (List Char × List Char)) :
    Nat → List Char → List (List Char)
  | 0, _ => []
  | _ + 1, [] => []
  | n + 1, c :: cs =>
    match step (c :: cs) with
    | some (w, rest) => w :: findAll step n rest
    | none => findAll step n cs

/-- Line 44-45 of `rls-auditor.py`: uppercase the file content, find all
tables with RLS enabled, lowercase the captures. -/
def extractRls (text : String) : List String :=
  let content := pyUpper text
  (findAll matchRlsAt content.data.length content.data).map
    (fun w => pyLower (String.mk w))

/-- Line 48-49 of `rls-auditor.py`: uppercase the file content, find all
created tables, lowercase the captures. -/
def extractCreated (text : String) : List String :=
  let content := pyUpper text
  (findAll matchCreateAt content.data.length content.data).map
    (fun w => pyLower (String.mk w))

/-- One iteration of the file loop of `audit_rls_from_migrations`:
`acc.1` is `rls_enabled`, `acc.2` is `tables_created`, both updated by
set union with the extractions of this file. -/
def auditStep (acc : Finset String × Finset String) (content : String) :
    Finset String × Finset String :=
  (acc.1 ∪ (extractRls content).toFinset, acc.2 ∪ (extractCreated content).toFinset)

/-- The file loop of `audit_rls_from_migrations` (lines 36-49): the pair
`(rls_enabled, tables_created)` accumulated over all migration files. -/
def auditSets (files : List String) : Finset String × Finset String :=
  files.foldl auditStep (∅, ∅)

/-- The two shapes of the dictionary returned by `audit_rls_from_migrations`:
an `error` entry, or the report with `tables_created` and `rls_enabled`. -/
inductive AuditResult
  | error (msg : String)
  | report (tables_created : Finset String) (rls_enabled : Finset String)
deriving DecidableEq

/-- Embedding of `audit_rls_from_migrations`. The directory read is embedded as the
`Option (List String)` argument: `none` means `migrations_path.exists()` is
false, `some files` gives the texts of the `*.sql` files found. -/
def audit_rls_from_migrations (migrations_dir : String)
    (files? : Option (List String)) : AuditResult :=
  match files? with
  | none => .error ("Directory not found: " ++ migrations_dir)
  | some files => .report (auditSets files).2 (auditSets files).1

/-- The `missing_rls` computation of `main` (lines 85-88 of
`rls-auditor.py`): required tables that were created but have no RLS. -/
def missing_rls (files : List String) : List String :=
  REQUIRED_RLS_TABLES.filter
    (fun t => decide (t ∈ (auditSets files).2) && decide (t ∉ (auditSets files).1))

/-! ## scripts/index-analyzer.py -/

/-- Python regex `\s` over the ASCII range: space, tab, newline, carriage
return, vertical tab, form feed. -/
def isPySpace (c : Char) : Bool :=
  c == ' ' || c == '\t' || c == '\n' || c == '\r' ||
  c == Char.ofNat 11 || c == Char.ofNat 12

/-- Drop the maximal run of `\s` characters at the head (greedy `\s*`). -/
def skipWs : List Char → List Char
  | [] => []
  | c :: cs => if isPySpace c then skipWs cs else c :: cs

/-- Is there at least one `\s` character at the head (needed for `\s+`)? -/
def hasWsHead : List Char → Bool
  | [] => false
  | c :: _ => isPySpace c

/-- Is the head character exactly `a`? -/
def headIs (a : Char) : List Char → Bool
  | [] => false
  | c :: _ => c == a

/-- Anchored match of `WHERE\s+user_id\s*=` (the `user_lookup` pattern,
case-insensitively applied to uppercased text, hence uppercase literals).
Maximal munch of `\s+`/`\s*` is faithful because the characters that follow
(`U` and `=`) are not whitespace. -/
def userLookupAt (l : List Char) : Bool :=
  match stripLit "WHERE".data l with
  | none => false
  | some l1 =>
    hasWsHead l1 &&
      (match stripLit "USER_ID".data (skipWs l1) with
       | none => false
       | some l3 => headIs '=' (skipWs l3))

/-- Does the word run `w` realize `\w+_id` exactly (with nothing of the run
left over)? That is: length at least 4 and the last three characters are
`_ID`. -/
def endsWithIdSuffix (w : List Char) : Bool :=
  decide (4 ≤ w.length) && (w.drop (w.length - 3) == "_ID".data)

/-- Anchored match of `WHERE\s+\w+_id\s*=` (the `foreign_key` pattern).
After the whitespace, `\w+_id` must consume a whole maximal word run ending
in `_ID`, because the next regex atom (`\s*` then `=`) cannot match a word
character. -/
def foreignKeyAt (l : List Char) : Bool :=
  match stripLit "WHERE".data l with
  | none => false
  | some l1 =>
    hasWsHead l1 &&
      (let p := wordRun (skipWs l1)
       endsWithIdSuffix p.1 && headIs '=' (skipWs p.2))

/-- Try to strip any of the given literals (regex alternation, tried left to
right). -/
def stripAnyLit : List (List Char) → List Char → Option (List Char)
  | [], _ => none
  | p :: ps, l =>
    match stripLit p l with
    | some r => some r
    | none => stripAnyLit ps l

/-- The date-column alternation `(?:created_at|updated_at|transaction_date)`
uppercased. -/
def dateCols : List (List Char) :=
  ["CREATED_AT".data, "UPDATED_AT".data, "TRANSACTION_DATE".data]

/-- Anchored match of `(?:created_at|updated_at|transaction_date)\s*(?:>|<|BETWEEN)`,
the tail of the `date_range` pattern. -/
def dateTailAt (l : List Char) : Bool :=
  match stripAnyLit dateCols l with
  | none => false
  | some rest =>
    let r := skipWs rest
    headIs '>' r || headIs '<' r || startsWithLit "BETWEEN".data r

/-- The `.*` of the `date_range` pattern: try `dateTailAt` at this position
and at every later position reachable without crossing a newline (Python `.`
does not match `\n`). -/
def dotStarScan : List Char → Bool
  | [] => false
  | c :: cs => dateTailAt (c :: cs) || (c != '\n' && dotStarScan cs)

/-- Anchored match of `WHERE.*(?:created_at|updated_at|transaction_date)\s*(?:>|<|BETWEEN)`
(the `date_range` pattern). -/
def dateRangeAt (l : List Char) : Bool :=
  match stripLit "WHERE".data l with
  | none => false
  | some l1 => dotStarScan l1

/-- Anchored match of `ORDER BY\s+(?:created_at|updated_at|transaction_date)`
(the `order_by_date` pattern). -/
def orderByDateAt (l : List Char) : Bool :=
  match stripLit "ORDER BY".data l with
  | none => false
  | some l1 => hasWsHead l1 && (stripAnyLit dateCols (skipWs l1)).isSome

/-- The re.search discipline: does the anchored matcher `p` succeed at some position of
the text? -/
def searchAt (p : List Char → Bool) : List Char → Bool
  | [] => p []
  | c :: cs => p (c :: cs) || searchAt p cs

/-- One entry of the `recommendations` list of `analyze_query`. -/
structure Recommendation where
  issue : String
  suggestion : String
deriving DecidableEq

/-- One entry of `QUERY_PATTERNS`: registry key, the anchored matcher
realizing the `pattern` regex, the `description`, and the `index` template as
a function of the `table`, `date_col` and `fk` substitutions performed by
`str.format` at the call site. -/
structure QueryPattern where
  name : String
  matchAt : List Char → Bool
  description : String
  index : String → String → String → String

/-- Registry `QUERY_PATTERNS` of `index-analyzer.py`, in dictionary insertion order. -/
def QUERY_PATTERNS : List QueryPattern :=
  [⟨"user_lookup", userLookupAt, "User-based lookup",
     fun table _ _ =>
       "CREATE INDEX CONCURRENTLY idx_" ++ table ++ "_user_id ON " ++
         table ++ "(user_id);"⟩,
   ⟨"date_range", dateRangeAt, "Date range query",
     fun table date_col _ =>
       "CREATE INDEX CONCURRENTLY idx_" ++ table ++ "_date ON " ++
         table ++ "(" ++ date_col ++ " DESC);"⟩,
   ⟨"order_by_date", orderByDateAt, "Ordered by date",
     fun table date_col _ =>
       "CREATE INDEX CONCURRENTLY idx_" ++ table ++ "_date ON " ++
         table ++ "(" ++ date_col ++ " DESC);"⟩,
   ⟨"foreign_key", foreignKeyAt, "Foreign key lookup",
     fun table _ fk =>
       "CREATE INDEX CONCURRENTLY idx_" ++ table ++ "_" ++ fk ++ " ON " ++
         table ++ "(" ++ fk ++ ");"⟩]

/-- Embedding of `analyze_query` of `index-analyzer.py` (the Python default for
`table_name` is the string `TABLE`, passed explicitly here). -/
def analyze_query (query : String) (table_name : String) : List Recommendation :=
  let query_upper := pyUpper query
  (if strIn "SELECT *" query_upper then
     [⟨"SELECT * fetches all columns",
       "Select only needed columns for better performance"⟩] else []) ++
  (if !(strIn "WHERE" query_upper) && !(strIn "LIMIT" query_upper) then
     [⟨"No WHERE clause",
       "Add WHERE clause or LIMIT to avoid full table scan"⟩] else []) ++
  QUERY_PATTERNS.filterMap (fun p =>
    if searchAt p.matchAt query_upper.data then
      some ⟨p.description ++ " detected",
            p.index table_name "created_at" "column_id"⟩
    else none)

/-! ## Theorems -/

/-- C2: for every migration text, the additive flag of the classifier (`is_safe`)
is true exactly when its blocking-issue list is empty; and every text
containing the table-deletion marker `DROP TABLE` yields a false additive
flag with a non-empty blocking-issue list, in the validator as well as in
the `_is_additive` of the generator. -/
theorem additive_iff_no_blocking_issues (content : String) :
    ((validateContent content).1 = true ↔ (validateContent content).2.1 = []) ∧
    (strIn "DROP TABLE" (pyUpper content) = true →
      (validateContent content).1 = false ∧
      (validateContent content).2.1 ≠ [] ∧
      is_additive content = false) := by
  constructor
  · simp [validateContent]
  · intro h
    refine ⟨?_, ?_, ?_⟩
    · simp [validateContent, DANGEROUS_OPS, h]
    · simp [validateContent, DANGEROUS_OPS, h]
    · simp [is_additive, dangerous, h]

/-- C2 witness: the theorem instantiated at the text `DROP TABLE users;`. -/
theorem additive_iff_no_blocking_issues_witness :
    (validateContent "DROP TABLE users;").1 = false ∧
    (validateContent "DROP TABLE users;").2.1 ≠ [] ∧
    is_additive "DROP TABLE users;" = false :=
  (additive_iff_no_blocking_issues "DROP TABLE users;").2 (by decide)

/-- C3: the runtime estimator is a first-match-wins priority table whose
first rule is table creation: any text containing the table-creation marker
is bucketed `SubSecond` (label `<1 second`), for every row count and
regardless of any other marker in the text. -/
theorem create_table_runtime_priority (sql : String) (rows : Int)
    (h : strIn "CREATE TABLE" (pyUpper sql) = true) :
    estimate_runtime sql rows = "<1 second" ∧
    bucketOf (estimate_runtime sql rows) = RuntimeBucket.SubSecond := by
  have h1 : estimate_runtime sql rows = "<1 second" := by
    simp [estimate_runtime, h]
  exact ⟨h1, by rw [h1]; decide⟩

/-- C3 witness: a migration that creates a table, an index and a column at a
large row count is still bucketed `SubSecond`. -/
theorem create_table_runtime_priority_witness :
    estimate_runtime
        "create table t (id uuid); create index i on t(id); alter table t add column c int;"
        500000 = "<1 second" ∧
    bucketOf (estimate_runtime
        "create table t (id uuid); create index i on t(id); alter table t add column c int;"
        500000) = RuntimeBucket.SubSecond :=
  create_table_runtime_priority _ 500000 (by decide)

/-- C4: a text with a column-addition marker but no table-creation marker,
no default-value marker and no dangerous-operation marker is classified
additive with runtime bucket `SubSecond`. -/
theorem add_column_no_default_classification (sql : String) (rows : Int)
    (h1 : strIn "ADD COLUMN" (pyUpper sql) = true)
    (h2 : strIn "CREATE TABLE" (pyUpper sql) = false)
    (h3 : strIn "DEFAULT" (pyUpper sql) = false)
    (h4 : ∀ d ∈ dangerous, strIn d (pyUpper sql) = false) :
    is_additive sql = true ∧
    bucketOf (estimate_runtime sql rows) = RuntimeBucket.SubSecond := by
  have d1 := h4 "DROP TABLE" (by simp [dangerous])
  have d2 := h4 "DROP COLUMN" (by simp [dangerous])
  have d3 := h4 "ALTER COLUMN TYPE" (by simp [dangerous])
  have d4 := h4 "TRUNCATE" (by simp [dangerous])
  refine ⟨by simp [is_additive, dangerous, d1, d2, d3, d4], ?_⟩
  have he : estimate_runtime sql rows = "<1 second (nullable column)" := by
    simp [estimate_runtime, h1, h2, h3]
  rw [he]; decide

/-- C4 witness: the theorem instantiated at an add-column-without-default
migration. -/
theorem add_column_no_default_classification_witness :
    is_additive "ALTER TABLE t ADD COLUMN note TEXT;" = true ∧
    bucketOf (estimate_runtime "ALTER TABLE t ADD COLUMN note TEXT;" 0) =
      RuntimeBucket.SubSecond :=
  add_column_no_default_classification _ 0 (by decide) (by decide) (by decide)
    (by decide)

/-- C5: classifying `CREATE INDEX idx ON t(col);` at 500000 rows warns about
index creation without the concurrency marker, buckets the runtime as
`LongMinutes`, and is additive (both as the `is_safe` of the validator and as
the `_is_additive` of the generator). -/
theorem create_index_scenario :
    (validateContent "CREATE INDEX idx ON t(col);").2.2.contains
        "⚠️ Index creation without CONCURRENTLY - will lock table" = true ∧
    bucketOf (estimate_runtime "CREATE INDEX idx ON t(col);" 500000) =
      RuntimeBucket.LongMinutes ∧
    (validateContent "CREATE INDEX idx ON t(col);").1 = true ∧
    is_additive "CREATE INDEX idx ON t(col);" = true := by
  decide

/-- C10: when the migration file does not exist, `validate_migration`
returns `is_safe = false` with the single blocking issue naming the missing
file and an empty warning list — the same blocking-issue channel used for
dangerous SQL. -/
theorem missing_file_is_blocking (file_path : String) :
    validate_migration file_path none =
      (false, ["File not found: " ++ file_path], []) := rfl

/-- Membership in the `rls_enabled` component of the audit fold. -/
lemma mem_foldl_auditStep_rls (files : List String)
    (init : Finset String × Finset String) (x : String) :
    x ∈ (files.foldl auditStep init).1 ↔
      x ∈ init.1 ∨ ∃ c ∈ files, x ∈ (extractRls c).toFinset := by
  induction files generalizing init with
  | nil => simp
  | cons c cs ih =>
    simp only [List.foldl_cons, ih, auditStep, Finset.mem_union, List.mem_cons]
    constructor
    · rintro (⟨h | h⟩ | ⟨d, hd, hx⟩)
      · exact Or.inl h
      · exact Or.inr ⟨c, Or.inl rfl, h⟩
      · exact Or.inr ⟨d, Or.inr hd, hx⟩
    · rintro (h | ⟨d, rfl | hd, hx⟩)
      · exact Or.inl (Or.inl h)
      · exact Or.inl (Or.inr hx)
      · exact Or.inr ⟨d, hd, hx⟩

/-- Membership in the `tables_created` component of the audit fold. -/
lemma mem_foldl_auditStep_created (files : List String)
    (init : Finset String × Finset String) (x : String) :
    x ∈ (files.foldl auditStep init).2 ↔
      x ∈ init.2 ∨ ∃ c ∈ files, x ∈ (extractCreated c).toFinset := by
  induction files generalizing init with
  | nil => simp
  | cons c cs ih =>
    simp only [List.foldl_cons, ih, auditStep, Finset.mem_union, List.mem_cons]
    constructor
    · rintro (⟨h | h⟩ | ⟨d, hd, hx⟩)
      · exact Or.inl h
      · exact Or.inr ⟨c, Or.inl rfl, h⟩
      · exact Or.inr ⟨d, Or.inr hd, hx⟩
    · rintro (h | ⟨d, rfl | hd, hx⟩)
      · exact Or.inl (Or.inl h)
      · exact Or.inl (Or.inr hx)
      · exact Or.inr ⟨d, hd, hx⟩

/-- Component `rls_enabled` is the union over all files of the per-file extraction. -/
lemma mem_auditSets_rls (files : List String) (x : String) :
    x ∈ (auditSets files).1 ↔ ∃ c ∈ files, x ∈ (extractRls c).toFinset := by
  simp [auditSets, mem_foldl_auditStep_rls]

/-- Component `tables_created` is the union over all files of the per-file extraction. -/
lemma mem_auditSets_created (files : List String) (x : String) :
    x ∈ (auditSets files).2 ↔ ∃ c ∈ files, x ∈ (extractCreated c).toFinset := by
  simp [auditSets, mem_foldl_auditStep_created]

/-- C1: for every collection of migration texts, the missing set of the auditor
is exactly the derived view
`required ∩ created − rls_enabled − exempt` (the subtraction of the exempt
tables is vacuous because no exempt table is required), where `created` and
`rls_enabled` are the unions over all files of the per-file marker
extractions. -/
theorem missing_set_is_derived_view (files : List String) :
    (missing_rls files).toFinset =
      ((REQUIRED_RLS_TABLES.toFinset ∩ (auditSets files).2) \ (auditSets files).1) \
        EXEMPT_TABLES.toFinset ∧
    (∀ x, x ∈ (auditSets files).2 ↔ ∃ c ∈ files, x ∈ (extractCreated c).toFinset) ∧
    (∀ x, x ∈ (auditSets files).1 ↔ ∃ c ∈ files, x ∈ (extractRls c).toFinset) := by
  have hdisj : ∀ x ∈ REQUIRED_RLS_TABLES, x ∉ EXEMPT_TABLES := by decide
  refine ⟨?_, mem_auditSets_created files, mem_auditSets_rls files⟩
  ext x
  simp only [missing_rls, List.mem_toFinset, List.mem_filter, Bool.and_eq_true,
    decide_eq_true_eq, Finset.mem_sdiff, Finset.mem_inter]
  constructor
  · rintro ⟨hreq, hc, hr⟩
    exact ⟨⟨⟨hreq, hc⟩, hr⟩, hdisj x hreq⟩
  · rintro ⟨⟨⟨hreq, hc⟩, hr⟩, _⟩
    exact ⟨hreq, hc, hr⟩

/-- C6: a missing migrations directory yields the distinguished error
result, an existing but empty directory yields the report with empty
created and secured sets, and an existing directory never yields the error
result — the three situations are distinguishable in the return value. -/
theorem auditor_distinguishes_missing_directory (dir : String)
    (files : List String) :
    audit_rls_from_migrations dir none =
      AuditResult.error ("Directory not found: " ++ dir) ∧
    audit_rls_from_migrations dir (some []) = AuditResult.report ∅ ∅ ∧
    (∀ msg, audit_rls_from_migrations dir (some files) ≠ AuditResult.error msg) := by
  refine ⟨rfl, rfl, fun msg h => ?_⟩
  simp [audit_rls_from_migrations] at h

/-- C6 witness: the theorem instantiated at the default migrations directory
and a concrete one-file collection. -/
theorem auditor_distinguishes_missing_directory_witness :
    audit_rls_from_migrations "supabase/migrations" none =
      AuditResult.error "Directory not found: supabase/migrations" ∧
    audit_rls_from_migrations "supabase/migrations" (some []) =
      AuditResult.report ∅ ∅ ∧
    audit_rls_from_migrations "supabase/migrations"
        (some ["create table profiles (id uuid);"]) ≠
      AuditResult.error "Directory not found: supabase/migrations" :=
  ⟨(auditor_distinguishes_missing_directory "supabase/migrations"
      ["create table profiles (id uuid);"]).1,
   (auditor_distinguishes_missing_directory "supabase/migrations"
      ["create table profiles (id uuid);"]).2.1,
   (auditor_distinguishes_missing_directory "supabase/migrations"
      ["create table profiles (id uuid);"]).2.2 _⟩

/-- C7: the audit result is invariant under permutation of the input file
collection: equal multisets of migration texts give equal `tables_created`
and `rls_enabled` sets and an equal missing list. -/
theorem audit_perm_invariant (files files' : List String)
    (h : files.Perm files') :
    (auditSets files).2 = (auditSets files').2 ∧
    (auditSets files).1 = (auditSets files').1 ∧
    missing_rls files = missing_rls files' := by
  have hc : (auditSets files).2 = (auditSets files').2 := by
    ext x
    rw [mem_auditSets_created, mem_auditSets_created]
    constructor <;> rintro ⟨c, hc, hx⟩
    · exact ⟨c, h.mem_iff.mp hc, hx⟩
    · exact ⟨c, h.mem_iff.mpr hc, hx⟩
  have hr : (auditSets files).1 = (auditSets files').1 := by
    ext x
    rw [mem_auditSets_rls, mem_auditSets_rls]
    constructor <;> rintro ⟨c, hc, hx⟩
    · exact ⟨c, h.mem_iff.mp hc, hx⟩
    · exact ⟨c, h.mem_iff.mpr hc, hx⟩
  refine ⟨hc, hr, ?_⟩
  unfold missing_rls
  rw [hc, hr]

/-- C7 witness: swapping two migration files (creation in one, RLS enabling
in the other) leaves the audit unchanged. -/
theorem audit_perm_invariant_witness :
    (auditSets ["create table profiles (id uuid);",
                "alter table profiles enable row level security;"]).2 =
      (auditSets ["alter table profiles enable row level security;",
                  "create table profiles (id uuid);"]).2 ∧
    (auditSets ["create table profiles (id uuid);",
                "alter table profiles enable row level security;"]).1 =
      (auditSets ["alter table profiles enable row level security;",
                  "create table profiles (id uuid);"]).1 ∧
    missing_rls ["create table profiles (id uuid);",
                 "alter table profiles enable row level security;"] =
      missing_rls ["alter table profiles enable row level security;",
                   "create table profiles (id uuid);"] :=
  audit_perm_invariant _ _ (List.Perm.swap _ _ _)

/-- C8: the advisor flags `SELECT *` with an unrestricted-column issue, and
on a `user_id` lookup over table `t` emits the user-lookup index suggestion
with the `table` placeholder substituted by `t`. -/
theorem advisor_select_star_and_user_lookup :
    (∃ r ∈ analyze_query "SELECT * FROM t" "t",
       r.issue = "SELECT * fetches all columns") ∧
    (∃ r ∈ analyze_query "SELECT id FROM t WHERE user_id = $1" "t",
       r.issue = "User-based lookup detected" ∧
       r.suggestion = "CREATE INDEX CONCURRENTLY idx_t_user_id ON t(user_id);") := by
  decide

/-- Successfully stripping a literal decomposes the list. -/
lemma stripLit_eq_append : ∀ (p l r : List Char), stripLit p l = some r → l = p ++ r := by
  intro p
  induction p with
  | nil =>
    intro l r h
    simp only [stripLit, Option.some.injEq] at h
    simp [h]
  | cons a ps ih =>
    intro l r h
    cases l with
    | nil => simp [stripLit] at h
    | cons c cs =>
      rw [stripLit] at h
      split at h
      · next hac =>
        have hcc : a = c := by simpa using hac
        subst hcc
        simpa using ih cs r h
      · exact absurd h (by simp)

/-- A word run stops immediately at a non-word head. -/
lemma wordRun_cons_not (c : Char) (cs : List Char) (h : isWordChar c = false) :
    wordRun (c :: cs) = ([], c :: cs) := by
  simp [wordRun, h]

/-- A word run swallows a whole block of word characters. -/
lemma wordRun_append_of_all (w rest : List Char)
    (hw : ∀ c ∈ w, isWordChar c = true) (hr : wordRun rest = ([], rest)) :
    wordRun (w ++ rest) = (w, rest) := by
  induction w with
  | nil => simpa using hr
  | cons c cs ih =>
    have hc : isWordChar c = true := hw c (by simp)
    have hcs := ih (fun d hd => hw d (by simp [hd]))
    simp [wordRun, hc, hcs]

/-- Skipping whitespace does nothing at a non-whitespace head. -/
lemma skipWs_not_ws (c : Char) (cs : List Char) (h : isPySpace c = false) :
    skipWs (c :: cs) = c :: cs := by
  simp [skipWs, h]

/-- Whitespace characters are not word characters. -/
lemma isPySpace_not_word (c : Char) (h : isPySpace c = true) :
    isWordChar c = false := by
  simp only [isPySpace, Bool.or_eq_true, beq_iff_eq] at h
  rcases h with ((((rfl | rfl) | rfl) | rfl) | rfl) | rfl <;> decide

/-- If, after whitespace, the head is `=`, then no word run starts here. -/
lemma head_not_word_of_eq_after_ws (l : List Char)
    (h : headIs '=' (skipWs l) = true) : wordRun l = ([], l) := by
  cases l with
  | nil => rfl
  | cons c cs =>
    by_cases hws : isPySpace c = true
    · exact wordRun_cons_not c cs (isPySpace_not_word c hws)
    · rw [skipWs_not_ws c cs (by simpa using hws)] at h
      have hc : c = '=' := by simpa [headIs] using h
      subst hc
      exact wordRun_cons_not _ _ (by decide)

/-- At any position, a `user_lookup` match is also a `foreign_key` match:
the word `USER_ID` realizes `\w+_id`. -/
lemma userLookupAt_imp_foreignKeyAt (l : List Char)
    (h : userLookupAt l = true) : foreignKeyAt l = true := by
  unfold userLookupAt at h
  cases e1 : stripLit "WHERE".data l with
  | none => rw [e1] at h; simp at h
  | some l1 =>
    rw [e1] at h
    simp only [Bool.and_eq_true] at h
    obtain ⟨hws, h2⟩ := h
    cases e2 : stripLit "USER_ID".data (skipWs l1) with
    | none => rw [e2] at h2; simp at h2
    | some l3 =>
      rw [e2] at h2
      have h2 : headIs '=' (skipWs l3) = true := h2
      have hsplit : skipWs l1 = "USER_ID".data ++ l3 := stripLit_eq_append _ _ _ e2
      have hl3 : wordRun l3 = ([], l3) := head_not_word_of_eq_after_ws l3 h2
      have hrun : wordRun (skipWs l1) = ("USER_ID".data, l3) := by
        rw [hsplit]
        exact wordRun_append_of_all _ _ (by decide) hl3
      have hsuf : endsWithIdSuffix ("USER_ID".data) = true := by decide
      unfold foreignKeyAt
      rw [e1]
      simp only [Bool.and_eq_true]
      exact ⟨hws, by simp [hrun, hsuf, h2]⟩

/-- Search over all positions is monotone in the anchored matcher. -/
lemma searchAt_mono (p q : List Char → Bool)
    (hpq : ∀ l, p l = true → q l = true) :
    ∀ l, searchAt p l = true → searchAt q l = true := by
  intro l
  induction l with
  | nil => intro h; exact hpq [] h
  | cons c cs ih =>
    intro h
    simp only [searchAt, Bool.or_eq_true] at h ⊢
    rcases h with h | h
    · exact Or.inl (hpq _ h)
    · exact Or.inr (ih h)

/-- C9: the `foreign_key` regex subsumes the `user_lookup` regex, so every
query matched by the user-id-lookup pattern gets at least two index
suggestions: the user-lookup one, followed later (registry order) by the
foreign-key one with the generic `column_id` placeholder. -/
theorem user_lookup_subsumed_by_foreign_key (query table : String)
    (h : searchAt userLookupAt (pyUpper query).data = true) :
    searchAt foreignKeyAt (pyUpper query).data = true ∧
    ∃ l1 l2 l3, analyze_query query table =
      l1 ++
      ({ issue := "User-based lookup detected",
         suggestion := "CREATE INDEX CONCURRENTLY idx_" ++ table ++
           "_user_id ON " ++ table ++ "(user_id);" } : Recommendation) ::
      l2 ++
      ({ issue := "Foreign key lookup detected",
         suggestion := "CREATE INDEX CONCURRENTLY idx_" ++ table ++
           "_column_id ON " ++ table ++ "(column_id);" } : Recommendation) ::
      l3 := by
  have hfk : searchAt foreignKeyAt (pyUpper query).data = true :=
    searchAt_mono _ _ userLookupAt_imp_foreignKeyAt _ h
  refine ⟨hfk,
    (if strIn "SELECT *" (pyUpper query) then
       [⟨"SELECT * fetches all columns",
         "Select only needed columns for better performance"⟩] else []) ++
    (if !(strIn "WHERE" (pyUpper query)) && !(strIn "LIMIT" (pyUpper query)) then
       [⟨"No WHERE clause",
         "Add WHERE clause or LIMIT to avoid full table scan"⟩] else []),
    (if searchAt dateRangeAt (pyUpper query).data then
       [⟨"Date range query detected",
         "CREATE INDEX CONCURRENTLY idx_" ++ table ++ "_date ON " ++ table ++
           "(created_at DESC);"⟩] else []) ++
    (if searchAt orderByDateAt (pyUpper query).data then
       [⟨"Ordered by date detected",
         "CREATE INDEX CONCURRENTLY idx_" ++ table ++ "_date ON " ++ table ++
           "(created_at DESC);"⟩] else []),
    [], ?_⟩
  cases hd : searchAt dateRangeAt (pyUpper query).data <;>
    cases ho : searchAt orderByDateAt (pyUpper query).data <;>
      simp [analyze_query, QUERY_PATTERNS, h, hfk, hd, ho] <;>
        (repeat' apply And.intro) <;> (apply String.ext; simp [String.data_append])

/-- C9 witness: the theorem instantiated at the user-id lookup query over
table `t`. -/
theorem user_lookup_subsumed_by_foreign_key_witness :
    searchAt foreignKeyAt (pyUpper "SELECT id FROM t WHERE user_id = $1").data = true ∧
    ∃ l1 l2 l3, analyze_query "SELECT id FROM t WHERE user_id = $1" "t" =
      l1 ++
      ({ issue := "User-based lookup detected",
         suggestion := "CREATE INDEX CONCURRENTLY idx_t_user_id ON t(user_id);" } :
        Recommendation) ::
      l2 ++
      ({ issue := "Foreign key lookup detected",
         suggestion := "CREATE INDEX CONCURRENTLY idx_t_column_id ON t(column_id);" } :
        Recommendation) ::
      l3 :=
  user_lookup_subsumed_by_foreign_key _ _ (by decide)

end Architect
